import Mathlib

/-
  Verification of the Gemini MCP bridge.

  Shallow embedding of `GeminiMCPClient` (client.py) and of the HTTP
  facade endpoints (backend/api_server.py).  External collaborators (the
  MCP transport session and the Gemini generation API) are modelled as
  oracles; a raising call is an `Except.error`.
-/

/-- A property entry of the JSON-schema-like parameters object built in
client.py, holding its declared type and description strings. -/
structure PropertySpec where
  type : String
  description : String
deriving DecidableEq

/-- The `parameters` object built in `process_query`: the named
properties in order, plus the list of required property names. -/
structure ParamSchema where
  properties : List (String × PropertySpec)
  required : List String
deriving DecidableEq

/-- A tool descriptor as returned by the MCP session method `list_tools`
(an `mcp.types.Tool`): name, description and an optional
provider-supplied input schema. -/
structure ToolDescriptor where
  name : String
  description : String
  inputSchema : Option ParamSchema
deriving DecidableEq

/-- A Gemini function declaration (`genai.types.FunctionDeclaration`). -/
structure FunctionDeclaration where
  name : String
  description : String
  parameters : ParamSchema
deriving DecidableEq

/-- The name-keyed fallback parameter table inlined in
`GeminiMCPClient.process_query` (client.py lines 88-126): a tool named
"login" gets required string parameters username and password, a tool
named "get_products" gets optional integer parameters page and limit,
and every other name gets a zero-parameter object. -/
def fallbackParameters (name : String) : ParamSchema :=
  if name = "login" then
    { properties := [("username", { type := "string", description := "Username for login" }),
                     ("password", { type := "string", description := "Password for login" })],
      required := ["username", "password"] }
  else if name = "get_products" then
    { properties := [("page", { type := "integer", description := "Page number for pagination" }),
                     ("limit", { type := "integer", description := "Number of items per page" })],
      required := [] }
  else
    { properties := [], required := [] }

/-- Conversion of one MCP tool into a Gemini function declaration, as
performed in `process_query`: the declaration carries the tool name and
description, and its parameters come from the name-keyed branches alone
(the code never reads the provider-supplied schema). -/
def toFunctionDeclaration (tool : ToolDescriptor) : FunctionDeclaration :=
  { name := tool.name, description := tool.description,
    parameters := fallbackParameters tool.name }

/-- A function-call part of a model response (`part.function_call`):
the requested tool name and the textual rendering of its arguments (the
code only forwards the arguments and interpolates them into a history
string). -/
structure FunctionCallPart where
  name : String
  args : String
deriving DecidableEq

/-- One part of a response candidate; `function_call` is present exactly
when the hasattr function-call test in the code succeeds. -/
structure ResponsePart where
  function_call : Option FunctionCallPart
deriving DecidableEq

/-- The content of a response candidate: its list of parts. -/
structure Content where
  parts : List ResponsePart
deriving DecidableEq

/-- One candidate of a Gemini response. -/
structure Candidate where
  content : Content
deriving DecidableEq

/-- A Gemini generate-content response: the candidate list inspected by
the part loop, plus the `.text` value used on the no-tool-call path. -/
structure GenerateResponse where
  candidates : List Candidate
  text : String
deriving DecidableEq

/-- The parts inspected by the loop: those of the first candidate, or
none when the candidate list is empty (the truthiness guard in the code, namely
`if response.candidates and response.candidates[0].content.parts`). -/
def firstParts (r : GenerateResponse) : List ResponsePart :=
  match r.candidates with
  | [] => []
  | c :: _ => c.content.parts

/-- Observable external calls made while processing one query. -/
inductive Event where
  | modelCall (prompt : String)
  | toolCall (name : String) (args : String)
deriving DecidableEq

/-- Whether an event is an invocation of the generation model. -/
def isModelCall : Event → Bool
  | Event.modelCall _ => true
  | Event.toolCall _ _ => false

/-- The external collaborators of `process_query`: the MCP session methods
`list_tools` and `call_tool`, and the Gemini `generate_content_async`
call.  `call_tool` results are modelled by their string rendering, since
the code only ever stringifies them. -/
structure Env where
  list_tools : Except String (List ToolDescriptor)
  generate_content : String → Except String GenerateResponse
  call_tool : String → String → Except String String

/-- Outcome of one `process_query` run: the returned value or the raised
exception, the conversation history afterwards, and the trace of
external calls issued. -/
structure QueryOutcome where
  result : Except String String
  history : List String
  events : List Event

/-- The prompt built in `process_query`: a serialized prefix of the
conversation history (when it is nonempty) followed by the current
query. -/
def promptOf (history : List String) (query : String) : String :=
  (if history = [] then ""
   else "Previous conversation:\n" ++ String.intercalate "\n" history ++
        "\n\nCurrent query: ") ++ query

/-- The first catalog tool whose name equals the requested one, as the
inner `for mcp_tool in mcp_tools` loop finds it. -/
def findTool (tools : List ToolDescriptor) (name : String) :
    Option ToolDescriptor :=
  tools.find? (fun t => t.name == name)

/-- The part loop of `process_query`: scan the response parts in order;
for a part carrying a function call whose name matches a catalog tool,
dispatch it through the transport, append the three history entries and
return the stringified result; otherwise keep scanning.  Returns `none`
when the loop falls through without dispatching. -/
def dispatchParts (env : Env) (tools : List ToolDescriptor) (query : String)
    (history : List String) : List ResponsePart → Option QueryOutcome
  | [] => none
  | part :: rest =>
    match part.function_call with
    | none => dispatchParts env tools query history rest
    | some fc =>
      match findTool tools fc.name with
      | none => dispatchParts env tools query history rest
      | some _ =>
        match env.call_tool fc.name fc.args with
        | Except.error e =>
          some { result := Except.error e, history := history,
                 events := [Event.toolCall fc.name fc.args] }
        | Except.ok res =>
          some { result := Except.ok res,
                 history := history ++
                   ["User: " ++ query,
                    "Assistant: Executed " ++ fc.name ++ " with args " ++ fc.args,
                    "Result: " ++ res],
                 events := [Event.toolCall fc.name fc.args] }

/-- The body of `GeminiMCPClient.process_query` after the session check:
list the tools, build the prompt, call the model, run the part loop and,
when it falls through, append the two-entry history update and return
the response text. -/
def runQuery (env : Env) (history : List String) (query : String) :
    QueryOutcome :=
  match env.list_tools with
  | Except.error e =>
    { result := Except.error e, history := history, events := [] }
  | Except.ok mcp_tools =>
    match env.generate_content (promptOf history query) with
    | Except.error e =>
      { result := Except.error e, history := history,
        events := [Event.modelCall (promptOf history query)] }
    | Except.ok response =>
      match dispatchParts env mcp_tools query history (firstParts response) with
      | some outcome =>
        { outcome with
            events := Event.modelCall (promptOf history query) :: outcome.events }
      | none =>
        { result := Except.ok response.text,
          history := history ++
            ["User: " ++ query, "Assistant: " ++ response.text],
          events := [Event.modelCall (promptOf history query)] }

/-- The mutable state of a `GeminiMCPClient`: the optional MCP session
(identified by a handle number) and the conversation history list. -/
structure ClientState where
  session : Option Nat
  conversation_history : List String
deriving DecidableEq

/-- `GeminiMCPClient.process_query` in full, including the initial
session check that raises `ValueError` when no session is active. -/
def process_query (env : Env) (c : ClientState) (query : String) :
    QueryOutcome × ClientState :=
  match c.session with
  | none =>
    ({ result := Except.error
         "No active MCP session. Call connect_to_server() first.",
       history := c.conversation_history, events := [] }, c)
  | some _ =>
    let o := runQuery env c.conversation_history query
    (o, { c with conversation_history := o.history })

/-- A client object held by the API server: its session handle, its
conversation history and whether its `cleanup()` (closing the exit
stack, hence the provider subprocess) has been invoked. -/
structure ClientObj where
  session : Option Nat
  conversation_history : List String
  closed : Bool
deriving DecidableEq

/-- The api_server process state: the global `client_instance` pointer,
plus a ghost list recording every client object the facade dropped, kept
solely to observe whether their resources were released. -/
structure ServerState where
  client_instance : Option ClientObj
  dropped : List ClientObj
deriving DecidableEq

/-- A FastAPI handler outcome: a normal return value, or a raised
`HTTPException` with its status code and detail message. -/
inductive ApiResult (α : Type) where
  | ok (value : α)
  | httpError (status : Nat) (detail : String)
deriving DecidableEq

/-- The `/api/query` response model: response text, success flag and
optional error text. -/
structure QueryResponse where
  response : String
  success : Bool
  error : Option String
deriving DecidableEq

/-- A client object holds a live provider subprocess when its connect
succeeded and its cleanup was never invoked. -/
def ClientObj.live (c : ClientObj) : Bool :=
  c.session.isSome && !c.closed

/-- The number of live provider subprocesses held anywhere under the
bridge, the dropped clients included. -/
def liveCount (s : ServerState) : Nat :=
  ((s.dropped ++ s.client_instance.toList).filter ClientObj.live).length

/-- The `/api/connect` handler (api_server.py `connect_to_server`): it
unconditionally overwrites the global `client_instance` with a freshly
constructed client and then attempts the connection (outcome given by
the `res` oracle; a successful attempt yields the new session handle).
On failure the new client is cleaned up, the global is reset and an
`HTTPException` 500 is raised.  The prior client, if any, is dropped
without its cleanup ever being invoked. -/
def connect_to_server (res : Except String Nat) (s : ServerState) :
    ServerState × ApiResult (Bool × String) :=
  let dropped1 := s.dropped ++ s.client_instance.toList
  match res with
  | Except.ok sid =>
    ({ client_instance :=
         some { session := some sid, conversation_history := [], closed := false },
       dropped := dropped1 },
     ApiResult.ok (true, "Successfully connected to MCP server"))
  | Except.error e =>
    ({ client_instance := none,
       dropped := dropped1 ++
         [{ session := none, conversation_history := [], closed := true }] },
     ApiResult.httpError 500 ("Failed to connect to MCP server: " ++ e))

/-- The `/api/disconnect` handler: when a client exists, its cleanup is
invoked (any cleanup exception is caught and printed) and the global is
reset; in every case the same success payload is returned. -/
def disconnect_from_server (s : ServerState) : ServerState × (Bool × String) :=
  match s.client_instance with
  | some c =>
    ({ client_instance := none,
       dropped := s.dropped ++ [{ c with closed := true }] },
     (true, "Disconnected from server"))
  | none => (s, (true, "Disconnected from server"))

/-- The `/api/query` handler: with no client it raises `HTTPException`
400; otherwise it runs the `process_query` of the client, returning the text
on success and a success=false `QueryResponse` carrying the error text
when the client raised. -/
def api_process_query (env : Env) (s : ServerState) (q : String) :
    ServerState × ApiResult QueryResponse :=
  match s.client_instance with
  | none =>
    (s, ApiResult.httpError 400
      "No active MCP connection. Please connect to a server first.")
  | some c =>
    let p := process_query env
      { session := c.session, conversation_history := c.conversation_history } q
    let s1 : ServerState :=
      { s with
          client_instance := some ({ c with conversation_history := p.2.conversation_history }) }
    match p.1.result with
    | Except.ok r =>
      (s1, ApiResult.ok { response := r, success := true, error := none })
    | Except.error e =>
      (s1, ApiResult.ok { response := "", success := false, error := some e })

/-- The DELETE `/api/conversation` handler: with a client, empty its
history and report success; with none, report success=false. -/
def clear_conversation (s : ServerState) : ServerState × (Bool × String) :=
  match s.client_instance with
  | some c =>
    ({ s with client_instance := some ({ c with conversation_history := [] }) },
     (true, "Conversation history cleared"))
  | none => (s, (false, "No active client"))

/-- The GET `/api/conversation` handler: the history and its length,
or the empty list and 0 with no client. -/
def get_conversation (s : ServerState) : List String × Nat :=
  match s.client_instance with
  | some c => (c.conversation_history, c.conversation_history.length)
  | none => ([], 0)

/-- A provider-supplied explicit schema, used to exhibit that the
adapter ignores explicit schemas. -/
def explicitSchema : ParamSchema :=
  { properties := [("x", { type := "string", description := "X coordinate" })],
    required := ["x"] }

/-- A model response whose single part requests the tool "bar". -/
def unknownToolResponse : GenerateResponse :=
  { candidates := [⟨⟨[⟨some ⟨"bar", "a: 1"⟩⟩]⟩⟩],
    text := "fallback text" }

/-- An environment whose catalog holds only a tool named "foo" while the
model requests "bar"; its transport would answer with a sentinel if it
were ever contacted. -/
def unknownToolEnv : Env :=
  { list_tools := Except.ok [⟨"foo", "demo tool", none⟩],
    generate_content := fun _ => Except.ok unknownToolResponse,
    call_tool := fun _ _ => Except.ok "TRANSPORT CONTACTED" }

/-- A model response whose single part requests the tool "foo". -/
def matchingToolResponse : GenerateResponse :=
  { candidates := [⟨⟨[⟨some ⟨"foo", "a: 1"⟩⟩]⟩⟩],
    text := "unused text" }

/-- An environment whose catalog holds a tool named "foo" and whose
model requests exactly that tool; the transport answers successfully. -/
def toolEnv : Env :=
  { list_tools := Except.ok [⟨"foo", "demo tool", none⟩],
    generate_content := fun _ => Except.ok matchingToolResponse,
    call_tool := fun _ _ => Except.ok "tool output" }

/-- An environment whose model call always fails. -/
def failingModelEnv : Env :=
  { list_tools := Except.ok [],
    generate_content := fun _ => Except.error "model down",
    call_tool := fun _ _ => Except.ok "r" }

/-- A server state holding one connected, never-closed client. -/
def connectedState : ServerState :=
  { client_instance :=
      some { session := some 0, conversation_history := [], closed := false },
    dropped := [] }

/-- The server state before any connect. -/
def emptyState : ServerState := { client_instance := none, dropped := [] }


/-- Whether a handler outcome is a normal return (as opposed to a raised
HTTPException). -/
def isOkResult {α : Type} : ApiResult α → Bool
  | ApiResult.ok _ => true
  | ApiResult.httpError _ _ => false

/-- When no function-call part of the response names a catalog tool, the
part loop dispatches nothing and falls through. -/
theorem dispatchParts_eq_none (env : Env) (tools : List ToolDescriptor)
    (q : String) (h : List String) (parts : List ResponsePart)
    (hmiss : ∀ p ∈ parts, ∀ fc, p.function_call = some fc →
      findTool tools fc.name = none) :
    dispatchParts env tools q h parts = none := by
  induction parts with
  | nil => rfl
  | cons p rest ih =>
    have hrest : ∀ p2 ∈ rest, ∀ fc, p2.function_call = some fc →
        findTool tools fc.name = none :=
      fun p2 hp2 => hmiss p2 (List.mem_cons_of_mem p hp2)
    unfold dispatchParts
    split
    · exact ih hrest
    · split
      · exact ih hrest
      · rename_i x1 fc hfc x2 t hft
        rw [hmiss p (List.mem_cons_self p rest) fc hfc] at hft
        cases hft

/-- Characterization of any dispatch performed by the part loop: it
issues exactly one tool call, its result is the answer of the transport to
that call, the history is untouched when the transport raised and
receives exactly the three labelled entries when it answered. -/
theorem dispatchParts_spec (env : Env) (tools : List ToolDescriptor)
    (q : String) (h : List String) (parts : List ResponsePart)
    (o : QueryOutcome) (ho : dispatchParts env tools q h parts = some o) :
    ∃ n a,
      (∃ e, env.call_tool n a = Except.error e ∧
        o = ⟨Except.error e, h, [Event.toolCall n a]⟩) ∨
      (∃ r, env.call_tool n a = Except.ok r ∧
        o = ⟨Except.ok r,
          h ++ ["User: " ++ q,
                "Assistant: Executed " ++ n ++ " with args " ++ a,
                "Result: " ++ r],
          [Event.toolCall n a]⟩) := by
  induction parts with
  | nil => cases ho
  | cons p rest ih =>
    unfold dispatchParts at ho
    split at ho
    · exact ih ho
    · split at ho
      · exact ih ho
      · split at ho
        · rename_i x1 fc hfc x2 t hft x3 e hc
          cases ho
          exact ⟨fc.name, fc.args, Or.inl ⟨e, hc, rfl⟩⟩
        · rename_i x1 fc hfc x2 t hft x3 r hc
          cases ho
          exact ⟨fc.name, fc.args, Or.inr ⟨r, hc, rfl⟩⟩

/-- Exhaustive case analysis of `runQuery`: the tools listing failed, the
model call failed, exactly one tool was dispatched (and answered or
raised), or the part loop fell through to the plain-text path.  Each case
records the exact outcome. -/
theorem runQuery_cases (env : Env) (h : List String) (q : String) :
    (∃ e, env.list_tools = Except.error e ∧
      runQuery env h q = ⟨Except.error e, h, []⟩) ∨
    (∃ tools e, env.list_tools = Except.ok tools ∧
      env.generate_content (promptOf h q) = Except.error e ∧
      runQuery env h q = ⟨Except.error e, h, [Event.modelCall (promptOf h q)]⟩) ∨
    (∃ n a e, env.call_tool n a = Except.error e ∧
      runQuery env h q =
        ⟨Except.error e, h,
         [Event.modelCall (promptOf h q), Event.toolCall n a]⟩) ∨
    (∃ n a r, env.call_tool n a = Except.ok r ∧
      runQuery env h q =
        ⟨Except.ok r,
         h ++ ["User: " ++ q,
               "Assistant: Executed " ++ n ++ " with args " ++ a,
               "Result: " ++ r],
         [Event.modelCall (promptOf h q), Event.toolCall n a]⟩) ∨
    (∃ resp, env.generate_content (promptOf h q) = Except.ok resp ∧
      runQuery env h q =
        ⟨Except.ok resp.text,
         h ++ ["User: " ++ q, "Assistant: " ++ resp.text],
         [Event.modelCall (promptOf h q)]⟩) := by
  unfold runQuery
  split
  · rename_i e hlt
    exact Or.inl ⟨e, hlt, rfl⟩
  · rename_i tools hlt
    split
    · rename_i e hg
      exact Or.inr (Or.inl ⟨tools, e, hlt, hg, rfl⟩)
    · rename_i resp hg
      split
      · rename_i o hd
        obtain ⟨n, a, hcase⟩ :=
          dispatchParts_spec env tools q h (firstParts resp) o hd
        cases hcase with
        | inl herr =>
          obtain ⟨e, hc, rfl⟩ := herr
          exact Or.inr (Or.inr (Or.inl ⟨n, a, e, hc, rfl⟩))
        | inr hok =>
          obtain ⟨r, hc, rfl⟩ := hok
          exact Or.inr (Or.inr (Or.inr (Or.inl ⟨n, a, r, hc, rfl⟩)))
      · rename_i hd
        exact Or.inr (Or.inr (Or.inr (Or.inr ⟨resp, hg, rfl⟩)))

/-- C5: for every ToolDescriptor with no explicit parameter schema, the
adapter produces, for the name "login", a declaration with exactly the
two required string parameters username and password; for the name
"get_products", a declaration with the two optional integer parameters
page and limit (empty required list); and for any other name, a
zero-parameter declaration. -/
theorem schema_fallback_by_name (t : ToolDescriptor)
    (hnone : t.inputSchema = none) :
    (t.name = "login" →
      (toFunctionDeclaration t).parameters.properties.map
          (fun p => (p.1, p.2.type)) =
        [("username", "string"), ("password", "string")] ∧
      (toFunctionDeclaration t).parameters.required =
        ["username", "password"]) ∧
    (t.name = "get_products" →
      (toFunctionDeclaration t).parameters.properties.map
          (fun p => (p.1, p.2.type)) =
        [("page", "integer"), ("limit", "integer")] ∧
      (toFunctionDeclaration t).parameters.required = []) ∧
    (t.name ≠ "login" → t.name ≠ "get_products" →
      (toFunctionDeclaration t).parameters.properties = [] ∧
      (toFunctionDeclaration t).parameters.required = []) := by
  refine ⟨fun h1 => ?_, fun h1 => ?_, fun h1 h2 => ?_⟩
  · simp [toFunctionDeclaration, fallbackParameters, h1]
  · simp [toFunctionDeclaration, fallbackParameters, h1]
  · simp [toFunctionDeclaration, fallbackParameters, h1, h2]

/-- C5 witness: the concrete descriptor named "login" with no schema. -/
theorem schema_fallback_by_name_witness :
    (toFunctionDeclaration ⟨"login", "d", none⟩).parameters.required =
      ["username", "password"] :=
  ((schema_fallback_by_name ⟨"login", "d", none⟩ rfl).1 rfl).2

/-- C6 counterexample: a descriptor named "widget" that supplies an
explicit one-required-parameter schema is adapted to the zero-parameter
fallback declaration, not to the supplied schema. -/
theorem explicit_schema_ignored_cex :
    (toFunctionDeclaration
        ⟨"widget", "widget tool", some explicitSchema⟩).parameters ≠
      explicitSchema ∧
    (toFunctionDeclaration
        ⟨"widget", "widget tool", some explicitSchema⟩).parameters =
      ⟨[], []⟩ := by
  constructor
  · decide
  · rfl

/-- C6 amended: the adapter never consults the provider-supplied
parameter schema; the generated parameters depend on the tool name
alone, through the name-keyed fallback table. -/
theorem adapter_ignores_explicit_schema (n d1 d2 : String)
    (s1 s2 : Option ParamSchema) :
    (toFunctionDeclaration ⟨n, d1, s1⟩).parameters =
      (toFunctionDeclaration ⟨n, d2, s2⟩).parameters := rfl

/-- C1: a connect issued while a Session is already active does not
invoke the close of the prior Session before the new open completes: the
dropped prior client is still unclosed afterwards and the bridge holds
two live provider subprocesses at once. -/
theorem reconnect_leaks_prior_session :
    (connect_to_server (Except.ok 1) connectedState).1.dropped.map
        ClientObj.closed = [false] ∧
    liveCount (connect_to_server (Except.ok 1) connectedState).1 = 2 := by
  constructor
  · rfl
  · rfl

/-- C8 counterexample: a query issued on the initial state (before any
connect) makes the handler raise HTTPException 400 — not return a
success=false QueryResponse — while the state stays untouched. -/
theorem query_before_connect_cex :
    isOkResult (api_process_query unknownToolEnv emptyState "hi").2 = false ∧
    (api_process_query unknownToolEnv emptyState "hi").2 =
      ApiResult.httpError 400
        "No active MCP connection. Please connect to a server first." ∧
    (api_process_query unknownToolEnv emptyState "hi").1 = emptyState := by
  exact ⟨rfl, rfl, rfl⟩

/-- C8 amended: for every query issued while no client instance exists,
the handler raises HTTPException with status 400 and the fixed detail
message, rather than returning a QueryResponse; the server state — hence
any conversation ledger — is left unchanged. -/
theorem query_before_connect_http_400 (env : Env) (s : ServerState)
    (q : String) (hnone : s.client_instance = none) :
    (api_process_query env s q).2 =
      ApiResult.httpError 400
        "No active MCP connection. Please connect to a server first." ∧
    (api_process_query env s q).1 = s := by
  unfold api_process_query
  rw [hnone]
  exact ⟨rfl, rfl⟩

/-- C8 witness: the amended statement applied at the initial state. -/
theorem query_before_connect_http_400_witness :
    (api_process_query unknownToolEnv emptyState "hi").1 = emptyState :=
  (query_before_connect_http_400 unknownToolEnv emptyState "hi" rfl).2

/-- C9: disconnect is idempotent: from any state, calling it twice in a
row produces the same success payload both times; in the embedding it is
a total function — matching the handler, which catches any cleanup
exception — so it never throws. -/
theorem disconnect_idempotent (s : ServerState) :
    (disconnect_from_server s).2 = (true, "Disconnected from server") ∧
    (disconnect_from_server (disconnect_from_server s).1).2 =
      (disconnect_from_server s).2 := by
  cases hs : s.client_instance <;>
    simp [disconnect_from_server, hs]

/-- C10: when no client instance exists, reading the conversation
returns the empty sequence with length 0 (totally, without raising), and
clearing the conversation returns success=false with message "No active
client", leaving the state unchanged. -/
theorem no_client_conversation_ops (s : ServerState)
    (hnone : s.client_instance = none) :
    get_conversation s = ([], 0) ∧
    clear_conversation s = (s, (false, "No active client")) := by
  unfold get_conversation clear_conversation
  rw [hnone]
  exact ⟨rfl, rfl⟩

/-- C10 witness: the statement applied at the initial state. -/
theorem no_client_conversation_ops_witness :
    get_conversation emptyState = ([], 0) :=
  (no_client_conversation_ops emptyState rfl).1

/-- When `runQuery` ends in an error, the conversation history is the
one it started from. -/
theorem runQuery_error_history (env : Env) (h : List String) (q : String)
    (e : String) (he : (runQuery env h q).result = Except.error e) :
    (runQuery env h q).history = h := by
  rcases runQuery_cases env h q with
    ⟨e2, hlt, heq⟩ | ⟨tools, e2, hlt, hg, heq⟩ | ⟨n, a, e2, hc, heq⟩ |
    ⟨n, a, r, hc, heq⟩ | ⟨resp, hg, heq⟩
  · rw [heq]
  · rw [heq]
  · rw [heq]
  · rw [heq] at he
    simp at he
  · rw [heq] at he
    simp at he

/-- C2 counterexample: with catalog ["foo"] and a model response calling
the unknown tool "bar", the query does not fail: it returns the model
response text, and the only external event is the model call — so the
transport was never contacted, and no DispatchError (indeed no error at
all) was raised. -/
theorem unknown_tool_no_dispatch_error_cex :
    (runQuery unknownToolEnv [] "q").result = Except.ok "fallback text" ∧
    (runQuery unknownToolEnv [] "q").events = [Event.modelCall "q"] := by
  exact ⟨rfl, rfl⟩

/-- C2 amended: when every function-call part of the model response
names a tool absent from the catalog, the call_tool of the transport is never
invoked for that query, but no DispatchError is raised: the query falls
through to the no-tool-call path, returning the model response text
and appending the User and Assistant ledger entries. -/
theorem unknown_tool_falls_through (env : Env) (h : List String)
    (q : String) (tools : List ToolDescriptor) (resp : GenerateResponse)
    (hlt : env.list_tools = Except.ok tools)
    (hg : env.generate_content (promptOf h q) = Except.ok resp)
    (hmiss : ∀ p ∈ firstParts resp, ∀ fc, p.function_call = some fc →
      findTool tools fc.name = none) :
    (runQuery env h q).result = Except.ok resp.text ∧
    (runQuery env h q).history =
      h ++ ["User: " ++ q, "Assistant: " ++ resp.text] ∧
    (runQuery env h q).events = [Event.modelCall (promptOf h q)] := by
  have hd := dispatchParts_eq_none env tools q h (firstParts resp) hmiss
  simp [runQuery, hlt, hg, hd]

/-- C2 witness: the amended statement at the concrete environment whose
catalog holds only "foo" while the model requests "bar". -/
theorem unknown_tool_falls_through_witness :
    (runQuery unknownToolEnv [] "q").result = Except.ok "fallback text" := by
  have hmiss : ∀ p ∈ firstParts unknownToolResponse, ∀ fc,
      p.function_call = some fc →
      findTool [(⟨"foo", "demo tool", none⟩ : ToolDescriptor)] fc.name =
        none := by
    intro p hp fc hfc
    have hp2 : p = ⟨some ⟨"bar", "a: 1"⟩⟩ := by
      simpa [unknownToolResponse, firstParts] using hp
    subst hp2
    cases hfc
    rfl
  exact (unknown_tool_falls_through unknownToolEnv [] "q"
    [⟨"foo", "demo tool", none⟩] unknownToolResponse rfl rfl hmiss).1

/-- C3: when a query fails — the session check, the tools listing, the
model call or the transport call raised — the error propagates to the
caller and the conversation history equals its state before the query
began: no partial entries are appended before the failure point. -/
theorem query_failure_leaves_history (env : Env) (c : ClientState)
    (q : String) (e : String)
    (he : (process_query env c q).1.result = Except.error e) :
    (process_query env c q).2.conversation_history =
      c.conversation_history := by
  unfold process_query at he ⊢
  split at he
  · rfl
  · exact runQuery_error_history env c.conversation_history q e he

/-- C3 witness: a query whose model call fails leaves the one-entry
history intact. -/
theorem query_failure_leaves_history_witness :
    (process_query failingModelEnv ⟨some 0, ["old"]⟩ "q").2.conversation_history =
      ["old"] :=
  query_failure_leaves_history failingModelEnv ⟨some 0, ["old"]⟩ "q"
    "model down" rfl

/-- C4: for every query run in which a tool call was dispatched and the
transport answered, the text returned to the caller equals the
stringified tool result, and the model was invoked exactly once for the
query — the event trace holds exactly one model call, so there is no
second model pass with the tool result. -/
theorem tool_dispatch_result_and_single_model_call (env : Env)
    (h : List String) (q : String) (n a r : String)
    (hev : Event.toolCall n a ∈ (runQuery env h q).events)
    (hok : env.call_tool n a = Except.ok r) :
    (runQuery env h q).result = Except.ok r ∧
    ((runQuery env h q).events.filter isModelCall).length = 1 := by
  rcases runQuery_cases env h q with
    ⟨e2, hlt, heq⟩ | ⟨tools, e2, hlt, hg, heq⟩ | ⟨n2, a2, e2, hc, heq⟩ |
    ⟨n2, a2, r2, hc, heq⟩ | ⟨resp, hg, heq⟩
  · rw [heq] at hev
    simp at hev
  · rw [heq] at hev
    simp at hev
  · rw [heq] at hev
    simp at hev
    obtain ⟨hn, ha⟩ := hev
    subst hn
    subst ha
    exact Except.noConfusion (hok.symm.trans hc)
  · rw [heq] at hev ⊢
    simp at hev
    obtain ⟨hn, ha⟩ := hev
    subst hn
    subst ha
    have hr : r = r2 := Except.ok.inj (hok.symm.trans hc)
    subst hr
    constructor
    · rfl
    · simp [isModelCall]
  · rw [heq] at hev
    simp at hev

/-- C4 witness: the concrete environment whose model requests the
catalog tool "foo" and whose transport answers "tool output". -/
theorem tool_dispatch_witness :
    (runQuery toolEnv [] "q").result = Except.ok "tool output" := by
  refine (tool_dispatch_result_and_single_model_call toolEnv [] "q"
    "foo" "a: 1" "tool output" ?_ rfl).1
  have hev : (runQuery toolEnv [] "q").events =
      [Event.modelCall "q", Event.toolCall "foo" "a: 1"] := rfl
  rw [hev]
  simp

/-- C7: every successfully completed query grows the history by exactly
three entries — labelled User, Assistant and Result, in that order, the
Result entry carrying the returned text — when a tool call was
dispatched, and by exactly two entries (User, then Assistant carrying
the returned text) when none was. -/
theorem ledger_growth (env : Env) (h : List String) (q : String)
    (r : String) (hok : (runQuery env h q).result = Except.ok r) :
    ((∃ n a, Event.toolCall n a ∈ (runQuery env h q).events) →
      (runQuery env h q).history.length = h.length + 3 ∧
      ∃ n a, (runQuery env h q).history = h ++
        ["User: " ++ q, "Assistant: Executed " ++ n ++ " with args " ++ a,
         "Result: " ++ r]) ∧
    ((∀ n a, Event.toolCall n a ∉ (runQuery env h q).events) →
      (runQuery env h q).history.length = h.length + 2 ∧
      (runQuery env h q).history = h ++
        ["User: " ++ q, "Assistant: " ++ r]) := by
  rcases runQuery_cases env h q with
    ⟨e2, hlt, heq⟩ | ⟨tools, e2, hlt, hg, heq⟩ | ⟨n2, a2, e2, hc, heq⟩ |
    ⟨n2, a2, r2, hc, heq⟩ | ⟨resp, hg, heq⟩
  · rw [heq] at hok
    simp at hok
  · rw [heq] at hok
    simp at hok
  · rw [heq] at hok
    simp at hok
  · rw [heq] at hok ⊢
    have hr : r2 = r := by simpa using hok
    subst hr
    constructor
    · intro _
      constructor
      · simp
      · exact ⟨n2, a2, rfl⟩
    · intro hnone
      exact absurd (by simp : Event.toolCall n2 a2 ∈
        [Event.modelCall (promptOf h q), Event.toolCall n2 a2]) (hnone n2 a2)
  · rw [heq] at hok ⊢
    have hr : resp.text = r := by simpa using hok
    constructor
    · intro hex
      obtain ⟨n, a, hmem⟩ := hex
      simp at hmem
    · intro _
      constructor
      · simp
      · rw [hr]

/-- C7 witness: with the concrete tool-dispatching environment and an
empty starting history, the history afterwards has exactly 3 entries. -/
theorem ledger_growth_witness :
    (runQuery toolEnv [] "q").history.length = 3 := by
  have hmem : Event.toolCall "foo" "a: 1" ∈ (runQuery toolEnv [] "q").events := by
    have hev : (runQuery toolEnv [] "q").events =
        [Event.modelCall "q", Event.toolCall "foo" "a: 1"] := rfl
    rw [hev]
    simp
  have hres := (ledger_growth toolEnv [] "q" "tool output" rfl).1
    ⟨"foo", "a: 1", hmem⟩
  simpa using hres.1
